import Mathlib

/-!
Verification of the playback-state pipeline of spotifymonitor (main.go).

Shallow embedding conventions:
- Go int values are Lean Int; Go `/` and `%` on int are truncated division,
  which is Int.tdiv and Int.tmod.
- Go float64 results are modelled by GoFloat: division by zero yields NaN or
  a signed infinity exactly as in IEEE 754; finite values are idealized as
  exact rationals (no theorem below depends on float rounding).
- The float64 WCAG color math (sRGBToLinear and friends) is modelled over the
  real numbers, since math.Pow is a genuinely real-valued operation.
- Network and filesystem effects of downloadAlbumArt are modelled by an
  ArtWorld record fixing the outcome of each operation, plus an explicit list
  of the files existing in the image cache.
-/

/-- Artist record: only Name is read (state.Item.Artists[0].Name, main.go:234). -/
structure SimpleArtist where
  name : String
deriving DecidableEq

/-- Album record: Name and the image URL list (Images[i].URL are the only parts read). -/
structure SimpleAlbum where
  name : String
  images : List String
deriving DecidableEq

/-- spotify.FullTrack fields read by getCurrentStatus. Duration is in milliseconds. -/
structure FullTrack where
  name : String
  album : SimpleAlbum
  artists : List SimpleArtist
  duration : Int
deriving DecidableEq

/-- spotify.PlaybackContext: only Endpoint is read (main.go:235). -/
structure PlaybackContext where
  endpoint : String
deriving DecidableEq

/-- spotify.CurrentlyPlaying fields read by the program. Item is a pointer
(*FullTrack) in Go, hence Option. Timestamp and Progress are milliseconds. -/
structure CurrentlyPlaying where
  timestamp : Int
  progress : Int
  playing : Bool
  item : Option FullTrack
  playbackContext : PlaybackContext
deriving DecidableEq

/-- A color as returned by Go color.Color.RGBA(): 16-bit premultiplied
channels in 0..65535. -/
structure GoColor where
  r : Nat
  g : Nat
  b : Nat
  a : Nat
deriving DecidableEq

/-- Go color.RGBA: 8-bit channels. -/
structure Rgba where
  r : Nat
  g : Nat
  b : Nat
  a : Nat
deriving DecidableEq

/-- Value of a Go float64 computation: NaN, a signed infinity, or a finite
value idealized as an exact rational. -/
inductive GoFloat where
  | nan
  | inf (pos : Bool)
  | fin (q : ℚ)
deriving DecidableEq

/-- main.go:236: float64(adjustedProgress) / float64(state.Item.Duration) * 100.
IEEE 754 float64 (which Go uses): 0/0 is NaN, x/0 for x ≠ 0 is a signed
infinity (integer 0 converts to +0.0); multiplying NaN or an infinity by 100
leaves it unchanged. Finite quotients are idealized as exact rationals. -/
def progressPct (adj dur : Int) : GoFloat :=
  if dur = 0 then
    (if adj = 0 then GoFloat.nan else GoFloat.inf (decide (0 < adj)))
  else GoFloat.fin ((adj : ℚ) / (dur : ℚ) * 100)

/-- Round a rational to the nearest integer, ties to even (the rounding Go
fmt uses when printing a float64 with %.2f). -/
def roundHalfEvenQ (q : ℚ) : Int :=
  let f : Int := Int.floor q
  let r : ℚ := q - f
  if r < 1/2 then f
  else if 1/2 < r then f + 1
  else if f % 2 = 0 then f else f + 1

/-- Two-digit zero padding of a natural number below 100. -/
def padTwo (n : Nat) : String :=
  if n < 10 then "0" ++ toString n else toString n

/-- Go Sprintf %.2f of an idealized finite float64 value. -/
def fmtF2 (q : ℚ) : String :=
  let s := if q < 0 then "-" else ""
  let c := roundHalfEvenQ (|q| * 100)
  s ++ toString (Int.tdiv c 100) ++ "." ++ padTwo (Int.tmod c 100).toNat

/-- main.go:237: fmt.Sprintf("%.2f%%", x). Go prints float64 NaN as "NaN"
and the infinities as "+Inf" / "-Inf". -/
def fmtGoPct (x : GoFloat) : String :=
  (match x with
   | GoFloat.nan => "NaN"
   | GoFloat.inf true => "+Inf"
   | GoFloat.inf false => "-Inf"
   | GoFloat.fin q => fmtF2 q) ++ "%"

/-- Go Sprintf %02d: zero-pad the decimal rendering to overall width 2 (a
negative sign counts toward the width, so negatives are not padded). -/
def pad02 (n : Int) : String :=
  if 0 ≤ n ∧ n < 10 then "0" ++ toString n else toString n

/-- main.go:241-243: fmt.Sprintf("%d:%02d", ms/60000, (ms/1000)%60), where /
and % are Go truncated int division, i.e. Int.tdiv and Int.tmod. -/
def fmtMinSec (ms : Int) : String :=
  toString (Int.tdiv ms 60000) ++ ":" ++ pad02 (Int.tmod (Int.tdiv ms 1000) 60)

/-- main.go:179-182: adjustedProgress := state.Progress + elapsedMs, then
clamped to state.Item.Duration when it reaches or exceeds it. -/
def adjustedProgress (progress duration elapsedMs : Int) : Int :=
  if duration ≤ progress + elapsedMs then duration else progress + elapsedMs

/-- main.go:176,179: elapsed milliseconds of
time.Since(time.Unix(int64(state.Timestamp/1000), 0)) with the model clock
nowMs in milliseconds. The source truncates Timestamp to whole seconds
(Timestamp/1000) before subtracting. -/
def elapsedMsSince (nowMs ts : Int) : Int :=
  nowMs - Int.tdiv ts 1000 * 1000

/-- main.go:293-298: first image URL, or the empty string when there is none. -/
def getAlbumArtURL (album : SimpleAlbum) : String :=
  match album.images with
  | [] => ""
  | u :: _ => u

/-- Fixed outcome of the network and filesystem operations downloadAlbumArt
performs: the HEAD response content type (none = the HEAD request errors),
and whether http.Get, os.Create and io.Copy succeed. Mkdir errors are
ignored by the source (main.go:340-342), so directory creation is not modelled. -/
structure ArtWorld where
  headContentType : Option String
  getOk : Bool
  createOk : Bool
  copyOk : Bool
deriving DecidableEq

/-- Failure modes of downloadAlbumArt that set its err return. -/
inductive DLError where
  | headFailed
  | getFailed
  | createFailed
  | copyFailed
deriving DecidableEq

/-- Result of downloadAlbumArt: the named returns (filename, err), the set of
cache files existing after the call, and whether an http.Get was issued. -/
structure DownloadResult where
  filename : String
  err : Option DLError
  fs : List String
  fetched : Bool
deriving DecidableEq

/-- Last path component accumulator: resets at every slash. -/
def baseNameAux : List Char → List Char → List Char
  | [], acc => acc
  | c :: rest, acc => if c = '/' then baseNameAux rest [] else baseNameAux rest (acc ++ [c])

/-- Go filepath.Base: the last component of the path after trailing slashes
are removed; "." for the empty path, "/" when only slashes remain. -/
def baseName (p : String) : String :=
  if p = "" then "."
  else
    let chars := (p.toList.reverse.dropWhile (fun c => c = '/')).reverse
    if chars = [] then "/" else String.mk (baseNameAux chars [])

/-- main.go:322: filepath.Join(imageCacheDir, filepath.Base(url)) + ".jpeg".
The cache key is a deterministic function of the URL path component. -/
def cacheFileName (dir url : String) : String :=
  dir ++ "/" ++ baseName url ++ ".jpeg"

/-- main.go:300-360, faithful to the named-return flow: an empty URL and a
non image/jpeg content type print and return an EMPTY filename with a nil
err; a HEAD error returns before the filename is assigned; once the filename
is assigned, a cache hit (os.Stat success) returns it with nil err and no
fetch, and later failures return the filename alongside the error. os.Create
makes the file exist on disk even when the subsequent io.Copy fails, so a
partially written file stays in the cache. -/
def downloadAlbumArt (w : ArtWorld) (fs : List String) (dir url : String) : DownloadResult :=
  if url = "" then ⟨"", none, fs, false⟩
  else
    match w.headContentType with
    | none => ⟨"", some DLError.headFailed, fs, false⟩
    | some ct =>
      if ct ≠ "image/jpeg" then ⟨"", none, fs, false⟩
      else
        let filename := cacheFileName dir url
        if filename ∈ fs then ⟨filename, none, fs, false⟩
        else if w.getOk then
          if w.createOk then
            if w.copyOk then ⟨filename, none, filename :: fs, true⟩
            else ⟨filename, some DLError.copyFailed, filename :: fs, true⟩
          else ⟨filename, some DLError.createFailed, fs, true⟩
        else ⟨filename, some DLError.getFailed, fs, true⟩

/-- main.go:362-375: open the file and decode it, returning nil on any
failure. decode maps an existing file to its extracted colors ([] when the
bytes do not decode as an image); a missing file never decodes, because
os.Open fails and image.Decode then returns an error. -/
def extractColors (fs : List String) (decode : String → List GoColor) (path : String) : List GoColor :=
  if path ∈ fs then decode path else []

/-- main.go:184-197: the colors extracted for the album art URL. The download
error is only logged; control flow keys on the returned filename being
non-empty, so extraction is attempted even after an error that left a
filename behind. -/
def albumArtColorsOf (w : ArtWorld) (fs : List String) (decode : String → List GoColor)
    (dir url : String) : List GoColor :=
  if url = "" then []
  else
    let dl := downloadAlbumArt w fs dir url
    if dl.filename = "" then [] else extractColors dl.fs decode dl.filename

/-- main.go:199-205: the default color 248,236,235 unless at least one color
was extracted, in which case the first color is used with each 16-bit
channel shifted right by 8. -/
def albumArtColorOf (w : ArtWorld) (fs : List String) (decode : String → List GoColor)
    (dir url : String) : Nat × Nat × Nat :=
  match albumArtColorsOf w fs decode dir url with
  | [] => (248, 236, 235)
  | c :: _ => (c.r / 256, c.g / 256, c.b / 256)

/-- main.go:387-392: the standard sRGB gamma expansion, real-valued model of
the float64 computation. -/
noncomputable def sRGBToLinear (c : ℝ) : ℝ :=
  if c ≤ 0.03928 then c / 12.92 else ((c + 0.055) / 1.055) ^ (2.4 : ℝ)

/-- main.go:377-385: WCAG relative luminance with weights 0.2126/0.7152/0.0722. -/
noncomputable def relativeLuminance (c : Rgba) : ℝ :=
  0.2126 * sRGBToLinear ((c.r : ℝ) / 255) +
  0.7152 * sRGBToLinear ((c.g : ℝ) / 255) +
  0.0722 * sRGBToLinear ((c.b : ℝ) / 255)

/-- main.go:394-402: swap so l1 holds the lighter luminance, then return
(l1 + 0.05) / (l2 + 0.05). -/
noncomputable def calculateContrastRatio (l1 l2 : ℝ) : ℝ :=
  if l1 < l2 then (l2 + 0.05) / (l1 + 0.05) else (l1 + 0.05) / (l2 + 0.05)

/-- main.go:404-411. -/
noncomputable def calculateColorContrast (c1 c2 : Rgba) : ℝ :=
  calculateContrastRatio (relativeLuminance c1) (relativeLuminance c2)

/-- main.go:413-423: black when its contrast against the background is
strictly greater than the contrast of white, else white. -/
noncomputable def provideTextColor (bgColor : Rgba) : Rgba :=
  if calculateColorContrast bgColor ⟨0, 0, 0, 255⟩ >
      calculateColorContrast bgColor ⟨255, 255, 255, 255⟩ then ⟨0, 0, 0, 255⟩
  else ⟨255, 255, 255, 255⟩

/-- Spec-style candidate selection: starting from the first candidate in
enumeration order, replace the best candidate so far only on strictly
greater contrast against the background. Ties therefore keep the earlier
candidate. Used to relate provideTextColor to the tie-break clause of C5. -/
noncomputable def selectMaxContrast (bg first : Rgba) (rest : List Rgba) : Rgba :=
  rest.foldl
    (fun best cand =>
      if calculateColorContrast bg cand > calculateColorContrast bg best then cand else best)
    first

/-- The report map built by getCurrentStatus (main.go:229-249), one field per
key of the map[string]interface literal. -/
structure Report where
  timestamp : Int
  playback_state : Bool
  track : String
  album : String
  artist : String
  endpoint : String
  progress_pct : GoFloat
  progress_pct_str : String
  progress_ms : Int
  duration_ms : Int
  remaining_ms : Int
  progress_str : String
  duration_str : String
  remaining_str : String
  album_art_url : String
  album_art_color_rgb : String
  album_art_colors : List GoColor
  text_color_rgb : String
  text_color : Nat × Nat × Nat

/-- Body of getCurrentStatus after the nil-state guard (main.go:175-249), for
a state whose Item is present and whose artist list starts with artist0.
The uint8 conversions of the color channels at main.go:216 are the mod-256
reductions. -/
noncomputable def buildReport (nowMs : Int) (w : ArtWorld) (fs : List String)
    (decode : String → List GoColor) (dir : String)
    (state : CurrentlyPlaying) (item : FullTrack) (artist0 : SimpleArtist) : Report :=
  let elapsed := elapsedMsSince nowMs state.timestamp
  let adjP := adjustedProgress state.progress item.duration elapsed
  let albumArtUrl := getAlbumArtURL item.album
  let colors := albumArtColorsOf w fs decode dir albumArtUrl
  let c3 := albumArtColorOf w fs decode dir albumArtUrl
  let textRGBA := provideTextColor ⟨c3.1 % 256, c3.2.1 % 256, c3.2.2 % 256, 255⟩
  { timestamp := Int.tdiv nowMs 1000
    playback_state := state.playing
    track := item.name
    album := item.album.name
    artist := artist0.name
    endpoint := state.playbackContext.endpoint
    progress_pct := progressPct adjP item.duration
    progress_pct_str := fmtGoPct (progressPct adjP item.duration)
    progress_ms := adjP
    duration_ms := item.duration
    remaining_ms := item.duration - adjP
    progress_str := fmtMinSec adjP
    duration_str := fmtMinSec item.duration
    remaining_str := fmtMinSec (item.duration - adjP)
    album_art_url := getAlbumArtURL item.album
    album_art_color_rgb := toString c3.1 ++ "," ++ toString c3.2.1 ++ "," ++ toString c3.2.2
    album_art_colors := colors
    text_color_rgb := toString textRGBA.r ++ "," ++ toString textRGBA.g ++ "," ++ toString textRGBA.b
    text_color := (textRGBA.r, textRGBA.g, textRGBA.b) }

/-- Outcome of running a piece of Go code that can panic. -/
inductive GoResult (α : Type) where
  | ok (val : α)
  | panicked

/-- main.go:170-252. A nil state returns a nil map (ok none). A present state
with a nil Item panics at state.Item.Duration (main.go:180); an empty artist
list panics at state.Item.Artists[0] (main.go:234). The artists access
happens after the color pipeline in source order, which does not affect the
returned value. -/
noncomputable def getCurrentStatus (nowMs : Int) (w : ArtWorld) (fs : List String)
    (decode : String → List GoColor) (dir : String) (st : Option CurrentlyPlaying) :
    GoResult (Option Report) :=
  match st with
  | none => GoResult.ok none
  | some state =>
    match state.item with
    | none => GoResult.panicked
    | some item =>
      match item.artists with
      | [] => GoResult.panicked
      | a0 :: _ => GoResult.ok (some (buildReport nowMs w fs decode dir state item a0))

/-- Outcome of one HTTP render request: either some HTML response is written
(template success or a 500 error, both are responses) or the handler panics. -/
inductive HandlerOutcome where
  | panicked
  | responded (rep : Report) (httpPort wsURL : String)

/-- main.go:96-105: the render handler calls getCurrentStatus(currentState)
and then executes state["httpPort"] = httpPort. When getCurrentStatus
returns a nil map (nil cached state) that assignment is an assignment to an
entry in a nil map, which panics in Go before any byte of the response is
written; net/http recovers the panic and aborts the connection. -/
noncomputable def renderHandler (nowMs : Int) (w : ArtWorld) (fs : List String)
    (decode : String → List GoColor) (dir : String) (st : Option CurrentlyPlaying)
    (httpPort wsURL : String) : HandlerOutcome :=
  match getCurrentStatus nowMs w fs decode dir st with
  | GoResult.panicked => HandlerOutcome.panicked
  | GoResult.ok none => HandlerOutcome.panicked
  | GoResult.ok (some rep) => HandlerOutcome.responded rep httpPort wsURL

/-- One iteration of the poll loop (main.go:130-147): on error, print and
sleep 5000 ms, leaving the cached state untouched; on success, stamp the
record with the current time in milliseconds, replace the cache with it
wholesale, and sleep 5000 ms. The returned pair is the new cache contents
and the sleep in milliseconds before the next query. -/
def pollStep (prev : Option CurrentlyPlaying) (result : Except String CurrentlyPlaying)
    (nowMs : Int) : Option CurrentlyPlaying × Nat :=
  match result with
  | Except.error _ => (prev, 5000)
  | Except.ok state => (some { state with timestamp := nowMs }, 5000)

/-- The formatting described by the spec sentence for C8:
"{ms/60000}:{(ms/1000)%60 zero-padded to 2 digits}" with floor division on a
natural number of milliseconds. -/
def specMinSec (m : Nat) : String :=
  toString (m / 60000) ++ ":" ++
    (if m / 1000 % 60 < 10 then "0" ++ toString (m / 1000 % 60) else toString (m / 1000 % 60))

/-- Rendering a nonnegative Int agrees with rendering the underlying Nat. -/
theorem toString_int_natCast (n : Nat) : toString ((n : Nat) : Int) = toString n := rfl

/-- pad02 on a nonnegative Int below 100 agrees with the Nat-side padding. -/
theorem pad02_natCast (s : Nat) :
    pad02 ((s : Nat) : Int) = if s < 10 then "0" ++ toString s else toString s := by
  unfold pad02
  rcases Nat.lt_or_ge s 10 with h | h
  · rw [if_pos ⟨by exact_mod_cast Nat.zero_le s, by exact_mod_cast h⟩, if_pos h,
      toString_int_natCast]
  · rw [if_neg (by rintro ⟨-, h2⟩; exact Nat.not_lt.2 h (by exact_mod_cast h2)),
      if_neg (Nat.not_lt.2 h), toString_int_natCast]

/-- Claim C1: the extrapolated progress computed by getCurrentStatus equals
min(progressAtAcquisition + elapsedMs, duration) unconditionally; for a
valid record (nonnegative progress and duration) and elapsedMs ≥ 0 it lies
in [0, duration] and the derived remaining time duration - adjustedProgress
is never negative; and the report fields progress_ms and remaining_ms of
every built report are exactly these quantities. -/
theorem adjustedProgress_spec :
    (∀ p d e : Int, adjustedProgress p d e = min (p + e) d) ∧
    (∀ p d e : Int, 0 ≤ p → 0 ≤ d → 0 ≤ e →
      0 ≤ adjustedProgress p d e ∧ adjustedProgress p d e ≤ d ∧
        0 ≤ d - adjustedProgress p d e) ∧
    (∀ nowMs w fs decode dir s it a0,
      (buildReport nowMs w fs decode dir s it a0).progress_ms
          = adjustedProgress s.progress it.duration (elapsedMsSince nowMs s.timestamp) ∧
      (buildReport nowMs w fs decode dir s it a0).remaining_ms
          = it.duration
              - adjustedProgress s.progress it.duration (elapsedMsSince nowMs s.timestamp)) := by
  have hmin : ∀ p d e : Int, adjustedProgress p d e = min (p + e) d := by
    intro p d e
    unfold adjustedProgress
    split_ifs with h
    · exact (min_eq_right h).symm
    · exact (min_eq_left (le_of_lt (not_le.1 h))).symm
  refine ⟨hmin, ?_, ?_⟩
  · intro p d e hp hd he
    rw [hmin]
    exact ⟨le_min (by linarith) hd, min_le_right _ _, sub_nonneg.2 (min_le_right _ _)⟩
  · intro nowMs w fs decode dir s it a0
    exact ⟨rfl, rfl⟩

/-- Witness for C1 at the end-to-end example of the spec: progress 50000,
duration 200000, elapsed 10000 milliseconds. -/
theorem adjustedProgress_spec_witness :
    (0:Int) ≤ 50000 ∧ (0:Int) ≤ 200000 ∧ (0:Int) ≤ 10000 ∧
    adjustedProgress 50000 200000 10000 = min (50000 + 10000) 200000 ∧
    (0 ≤ adjustedProgress 50000 200000 10000 ∧
      adjustedProgress 50000 200000 10000 ≤ 200000 ∧
      0 ≤ 200000 - adjustedProgress 50000 200000 10000) :=
  ⟨by decide, by decide, by decide,
    adjustedProgress_spec.1 50000 200000 10000,
    adjustedProgress_spec.2.1 50000 200000 10000 (by decide) (by decide) (by decide)⟩

/-- progress_pct field of buildReport, by definition. -/
theorem buildReport_progress_pct (nowMs : Int) (w : ArtWorld) (fs : List String)
    (decode : String → List GoColor) (dir : String) (s : CurrentlyPlaying)
    (it : FullTrack) (a0 : SimpleArtist) :
    (buildReport nowMs w fs decode dir s it a0).progress_pct
      = progressPct (adjustedProgress s.progress it.duration (elapsedMsSince nowMs s.timestamp))
          it.duration := rfl

/-- progress_pct_str field of buildReport, by definition. -/
theorem buildReport_progress_pct_str (nowMs : Int) (w : ArtWorld) (fs : List String)
    (decode : String → List GoColor) (dir : String) (s : CurrentlyPlaying)
    (it : FullTrack) (a0 : SimpleArtist) :
    (buildReport nowMs w fs decode dir s it a0).progress_pct_str
      = fmtGoPct
          (progressPct (adjustedProgress s.progress it.duration (elapsedMsSince nowMs s.timestamp))
            it.duration) := rfl

/-- Claim C2 counterexample: at a concrete cached record whose track duration
is 0, the report percentage is NaN (float64 0/0) and the string is "NaN%";
in particular it is not 0 percent, so the claimed division guard does not
exist in the code. -/
theorem progress_pct_zero_duration_cex :
    (buildReport 0 ⟨some "image/jpeg", true, true, true⟩ [] (fun _ => []) "image_cache"
        ⟨0, 0, true, some ⟨"Track", ⟨"Album", []⟩, [⟨"Artist"⟩], 0⟩, ⟨"ep"⟩⟩
        ⟨"Track", ⟨"Album", []⟩, [⟨"Artist"⟩], 0⟩ ⟨"Artist"⟩).progress_pct = GoFloat.nan ∧
    (buildReport 0 ⟨some "image/jpeg", true, true, true⟩ [] (fun _ => []) "image_cache"
        ⟨0, 0, true, some ⟨"Track", ⟨"Album", []⟩, [⟨"Artist"⟩], 0⟩, ⟨"ep"⟩⟩
        ⟨"Track", ⟨"Album", []⟩, [⟨"Artist"⟩], 0⟩ ⟨"Artist"⟩).progress_pct_str = "NaN%" ∧
    GoFloat.nan ≠ GoFloat.fin 0 ∧ ("NaN%" : String) ≠ "0.00%" := by
  refine ⟨by decide, by decide, by decide, by decide⟩

/-- Claim C2 (amended): for every record whose duration is 0 (with
nonnegative progress and elapsed time), the division is unguarded: the clamp
drives adjustedProgress to 0 and float64 0/0 yields NaN, so progress_pct is
NaN and progress_pct_str is "NaN%", not 0%. -/
theorem progress_pct_nan_of_zero_duration :
    ∀ (nowMs : Int) (w : ArtWorld) (fs : List String) (decode : String → List GoColor)
      (dir : String) (s : CurrentlyPlaying) (it : FullTrack) (a0 : SimpleArtist),
      it.duration = 0 → 0 ≤ s.progress → 0 ≤ elapsedMsSince nowMs s.timestamp →
      (buildReport nowMs w fs decode dir s it a0).progress_pct = GoFloat.nan ∧
      (buildReport nowMs w fs decode dir s it a0).progress_pct_str = "NaN%" := by
  intro nowMs w fs decode dir s it a0 hd hp he
  have hadj : adjustedProgress s.progress it.duration (elapsedMsSince nowMs s.timestamp) = 0 := by
    unfold adjustedProgress
    rw [hd, if_pos (by linarith)]
  refine ⟨?_, ?_⟩
  · rw [buildReport_progress_pct, hadj, hd]
    decide
  · rw [buildReport_progress_pct_str, hadj, hd]
    decide

/-- Witness for the amended C2 at a concrete zero-duration record. -/
theorem progress_pct_nan_of_zero_duration_witness :
    (buildReport 5000 ⟨some "image/jpeg", true, true, true⟩ [] (fun _ => []) "image_cache"
        ⟨0, 0, true, some ⟨"t", ⟨"a", []⟩, [⟨"x"⟩], 0⟩, ⟨"e"⟩⟩
        ⟨"t", ⟨"a", []⟩, [⟨"x"⟩], 0⟩ ⟨"x"⟩).progress_pct = GoFloat.nan ∧
    (buildReport 5000 ⟨some "image/jpeg", true, true, true⟩ [] (fun _ => []) "image_cache"
        ⟨0, 0, true, some ⟨"t", ⟨"a", []⟩, [⟨"x"⟩], 0⟩, ⟨"e"⟩⟩
        ⟨"t", ⟨"a", []⟩, [⟨"x"⟩], 0⟩ ⟨"x"⟩).progress_pct_str = "NaN%" :=
  progress_pct_nan_of_zero_duration 5000 ⟨some "image/jpeg", true, true, true⟩ []
    (fun _ => []) "image_cache"
    ⟨0, 0, true, some ⟨"t", ⟨"a", []⟩, [⟨"x"⟩], 0⟩, ⟨"e"⟩⟩
    ⟨"t", ⟨"a", []⟩, [⟨"x"⟩], 0⟩ ⟨"x"⟩ rfl (by decide) (by decide)

/-- Claim C3 (code bug): with no cached record (currentState nil) the render
handler does NOT produce a response, for every request and environment:
getCurrentStatus returns a nil map and the subsequent
state["httpPort"] = httpPort assignment into the nil map panics in Go. -/
theorem renderHandler_nil_panics :
    ∀ (nowMs : Int) (w : ArtWorld) (fs : List String) (decode : String → List GoColor)
      (dir httpPort wsURL : String),
      renderHandler nowMs w fs decode dir none httpPort wsURL = HandlerOutcome.panicked :=
  fun _ _ _ _ _ _ _ => rfl

/-- Claim C6: a failed poll leaves the cache unchanged (stale-but-available,
never cleared) and sleeps the fixed 5000 ms backoff, for every previous
cache value; a successful poll replaces the record wholesale with the
acquisition timestamp stamped to the current time, sleeping the same fixed
interval. -/
theorem pollStep_spec :
    (∀ (prev : Option CurrentlyPlaying) (msg : String) (nowMs : Int),
      pollStep prev (Except.error msg) nowMs = (prev, 5000)) ∧
    (∀ (prev : Option CurrentlyPlaying) (s : CurrentlyPlaying) (nowMs : Int),
      pollStep prev (Except.ok s) nowMs =
        (some { timestamp := nowMs, progress := s.progress, playing := s.playing,
                item := s.item, playbackContext := s.playbackContext }, 5000)) :=
  ⟨fun _ _ _ => rfl, fun _ _ _ => rfl⟩

/-- Claim C8: for every non-negative millisecond value the code formatter
Sprintf("%d:%02d", ms/60000, (ms/1000)%60) produces exactly the spec string
with two-digit zero-padded seconds, and the report fields progress_str,
duration_str and remaining_str are this formatter applied to progress_ms,
duration_ms and remaining_ms. -/
theorem fmtMinSec_spec :
    (∀ ms : Int, 0 ≤ ms → fmtMinSec ms = specMinSec ms.toNat) ∧
    (∀ nowMs w fs decode dir s it a0,
      (buildReport nowMs w fs decode dir s it a0).progress_str
          = fmtMinSec (buildReport nowMs w fs decode dir s it a0).progress_ms ∧
      (buildReport nowMs w fs decode dir s it a0).duration_str
          = fmtMinSec (buildReport nowMs w fs decode dir s it a0).duration_ms ∧
      (buildReport nowMs w fs decode dir s it a0).remaining_str
          = fmtMinSec (buildReport nowMs w fs decode dir s it a0).remaining_ms) := by
  constructor
  · intro ms h
    obtain ⟨n, rfl⟩ : ∃ n : Nat, ms = (n : Int) := ⟨ms.toNat, (Int.toNat_of_nonneg h).symm⟩
    have hn : ((n : Int)).toNat = n := Int.toNat_natCast n
    rw [hn]
    show toString ((n / 60000 : Nat) : Int) ++ ":" ++ pad02 ((n / 1000 % 60 : Nat) : Int)
        = specMinSec n
    rw [toString_int_natCast, pad02_natCast]
    rfl
  · intro nowMs w fs decode dir s it a0
    exact ⟨rfl, rfl, rfl⟩

/-- Witness for C8 at ms = 200000 (the spec example "3:20"). -/
theorem fmtMinSec_spec_witness :
    (0:Int) ≤ 200000 ∧ fmtMinSec 200000 = specMinSec (200000 : Int).toNat ∧
      fmtMinSec 200000 = "3:20" :=
  ⟨by decide, fmtMinSec_spec.1 200000 (by decide), by decide⟩

/-- Claim C10: building the status report from a cached record is panic-free
exactly when the record has a present Item and a non-empty artist list; the
unguarded Artists[0] access stays in range exactly when the list has at
least one element. -/
theorem getCurrentStatus_total_iff :
    ∀ (nowMs : Int) (w : ArtWorld) (fs : List String) (decode : String → List GoColor)
      (dir : String) (s : CurrentlyPlaying),
      getCurrentStatus nowMs w fs decode dir (some s) ≠ GoResult.panicked ↔
        ∃ it, s.item = some it ∧ it.artists ≠ [] := by
  intro nowMs w fs decode dir s
  rcases hs : s.item with _ | it
  · simp [getCurrentStatus, hs]
  · rcases ha : it.artists with _ | ⟨a, rest⟩
    · simp [getCurrentStatus, hs, ha]
    · simp [getCurrentStatus, hs, ha]

/-- The cache key is never the empty string: it always ends in ".jpeg". -/
theorem cacheFileName_ne_empty (dir url : String) : cacheFileName dir url ≠ "" := by
  intro h
  have hlen := congrArg String.length h
  simp only [cacheFileName, String.length_append] at hlen
  have h1 : ("/" : String).length = 1 := rfl
  have h2 : (".jpeg" : String).length = 5 := rfl
  have h3 : ("" : String).length = 0 := rfl
  rw [h1, h2, h3] at hlen
  omega

/-- Claim C4 counterexample: a reference whose HEAD probe reports a non-image
content type is a resolution failure mode ("not an image"), yet
downloadAlbumArt returns a NIL error (and an empty filename), contradicting
"downloadAlbumArt returns an error" for every failure mode. -/
theorem downloadAlbumArt_notImage_noError :
    (downloadAlbumArt ⟨some "text/html", true, true, true⟩ [] "image_cache"
        "https://img.example/art").err = none ∧
    (downloadAlbumArt ⟨some "text/html", true, true, true⟩ [] "image_cache"
        "https://img.example/art").filename = "" := by
  exact ⟨by decide, by decide⟩

/-- Claim C4 (amended): HEAD, GET, create and copy failures surface as a
non-nil error (GET and create failures as some getFailed / some
createFailed together with the already-assigned filename, the copy failure
as some copyFailed alongside the non-empty filename of a partially written
cache file that remains on disk); the not-an-image probe instead returns an
empty filename with a NIL error; and the caller ends at the default color
248,236,235 in every failure mode that yields no decodable image file -
for the partial-write mode only provided the partial file does not decode -
and generally whenever extraction yields no colors. -/
theorem downloadAlbumArt_error_fallback :
    (∀ w fs dir url, url ≠ "" → w.headContentType = none →
        (downloadAlbumArt w fs dir url).err = some DLError.headFailed) ∧
    (∀ w fs dir url ct, url ≠ "" → w.headContentType = some ct → ct ≠ "image/jpeg" →
        downloadAlbumArt w fs dir url = ⟨"", none, fs, false⟩) ∧
    (∀ w fs dir url, url ≠ "" → w.headContentType = some "image/jpeg" →
        cacheFileName dir url ∉ fs → w.getOk = false →
        downloadAlbumArt w fs dir url
          = ⟨cacheFileName dir url, some DLError.getFailed, fs, true⟩) ∧
    (∀ w fs dir url, url ≠ "" → w.headContentType = some "image/jpeg" →
        cacheFileName dir url ∉ fs → w.getOk = true → w.createOk = false →
        downloadAlbumArt w fs dir url
          = ⟨cacheFileName dir url, some DLError.createFailed, fs, true⟩) ∧
    (∀ w fs dir url, url ≠ "" → w.headContentType = some "image/jpeg" →
        cacheFileName dir url ∉ fs → w.getOk = true → w.createOk = true → w.copyOk = false →
        downloadAlbumArt w fs dir url
          = ⟨cacheFileName dir url, some DLError.copyFailed, cacheFileName dir url :: fs, true⟩
        ∧ cacheFileName dir url ≠ "") ∧
    (∀ w fs (decode : String → List GoColor) dir url,
        ((downloadAlbumArt w fs dir url).err).isSome →
        ((downloadAlbumArt w fs dir url).err = some DLError.copyFailed →
          decode (downloadAlbumArt w fs dir url).filename = []) →
        albumArtColorOf w fs decode dir url = (248, 236, 235)) ∧
    (∀ w fs (decode : String → List GoColor) dir url,
        decode (downloadAlbumArt w fs dir url).filename = [] →
        albumArtColorOf w fs decode dir url = (248, 236, 235)) := by
  refine ⟨?_, ?_, ?_, ?_, ?_, ?_, ?_⟩
  · intro w fs dir url hu hh
    simp [downloadAlbumArt, hu, hh]
  · intro w fs dir url ct hu hh hct
    simp [downloadAlbumArt, hu, hh, hct]
  · intro w fs dir url hu hh hmem hget
    simp [downloadAlbumArt, hu, hh, hmem, hget]
  · intro w fs dir url hu hh hmem hget hcreate
    simp [downloadAlbumArt, hu, hh, hmem, hget, hcreate]
  · intro w fs dir url hu hh hmem hget hcreate hcp
    refine ⟨?_, cacheFileName_ne_empty dir url⟩
    simp [downloadAlbumArt, hu, hh, hmem, hget, hcreate, hcp]
  · intro w fs decode dir url hsome hcopy
    by_cases hu : url = ""
    · rw [hu] at hsome
      simp [downloadAlbumArt] at hsome
    · rcases hh : w.headContentType with _ | ct
      · simp [albumArtColorOf, albumArtColorsOf, downloadAlbumArt, hu, hh]
      · by_cases hct : ct = "image/jpeg"
        · subst hct
          by_cases hmem : cacheFileName dir url ∈ fs
          · simp [downloadAlbumArt, hu, hh, hmem] at hsome
          · rcases hget : w.getOk with _ | _
            · simp [albumArtColorOf, albumArtColorsOf, downloadAlbumArt, extractColors,
                hu, hh, hmem, hget, cacheFileName_ne_empty]
            · rcases hcreate : w.createOk with _ | _
              · simp [albumArtColorOf, albumArtColorsOf, downloadAlbumArt, extractColors,
                  hu, hh, hmem, hget, hcreate, cacheFileName_ne_empty]
              · rcases hcp : w.copyOk with _ | _
                · simp only [downloadAlbumArt, hu, hh, hmem, hget, hcreate, hcp] at hcopy
                  have hd : decode (cacheFileName dir url) = [] := by simp_all
                  simp [albumArtColorOf, albumArtColorsOf, downloadAlbumArt, extractColors,
                    hu, hh, hmem, hget, hcreate, hcp, cacheFileName_ne_empty, hd]
                · simp [downloadAlbumArt, hu, hh, hmem, hget, hcreate, hcp] at hsome
        · simp [downloadAlbumArt, hu, hh, hct] at hsome
  · intro w fs decode dir url hdec
    by_cases hu : url = ""
    · simp [albumArtColorOf, albumArtColorsOf, hu]
    · rcases hh : w.headContentType with _ | ct
      · simp [albumArtColorOf, albumArtColorsOf, downloadAlbumArt, hu, hh]
      · by_cases hct : ct = "image/jpeg"
        · subst hct
          by_cases hmem : cacheFileName dir url ∈ fs
          · simp only [downloadAlbumArt, hu, hh, hmem] at hdec
            have hd : decode (cacheFileName dir url) = [] := by simp_all
            simp [albumArtColorOf, albumArtColorsOf, downloadAlbumArt, extractColors,
              hu, hh, hmem, cacheFileName_ne_empty, hd]
          · rcases hget : w.getOk with _ | _
            · simp [albumArtColorOf, albumArtColorsOf, downloadAlbumArt, extractColors,
                hu, hh, hmem, hget, cacheFileName_ne_empty]
            · rcases hcreate : w.createOk with _ | _
              · simp [albumArtColorOf, albumArtColorsOf, downloadAlbumArt, extractColors,
                  hu, hh, hmem, hget, hcreate, cacheFileName_ne_empty]
              · rcases hcp : w.copyOk with _ | _
                · simp only [downloadAlbumArt, hu, hh, hmem, hget, hcreate, hcp] at hdec
                  have hd : decode (cacheFileName dir url) = [] := by simp_all
                  simp [albumArtColorOf, albumArtColorsOf, downloadAlbumArt, extractColors,
                    hu, hh, hmem, hget, hcreate, hcp, cacheFileName_ne_empty, hd]
                · simp only [downloadAlbumArt, hu, hh, hmem, hget, hcreate, hcp] at hdec
                  have hd : decode (cacheFileName dir url) = [] := by simp_all
                  simp [albumArtColorOf, albumArtColorsOf, downloadAlbumArt, extractColors,
                    hu, hh, hmem, hget, hcreate, hcp, cacheFileName_ne_empty, hd]
        · simp [albumArtColorOf, albumArtColorsOf, downloadAlbumArt, hu, hh, hct,
            cacheFileName_ne_empty]

/-- Witness for the amended C4: a failing io.Copy returns some copyFailed
together with the non-empty filename of the partially written cache file
left on disk, and a failing HEAD request reports an error after which the
snapshot color falls back to 248,236,235. -/
theorem downloadAlbumArt_error_fallback_witness :
    (downloadAlbumArt ⟨some "image/jpeg", true, true, false⟩ [] "image_cache"
        "https://img.example/art"
      = ⟨cacheFileName "image_cache" "https://img.example/art", some DLError.copyFailed,
          cacheFileName "image_cache" "https://img.example/art" :: [], true⟩
      ∧ cacheFileName "image_cache" "https://img.example/art" ≠ "") ∧
    ((downloadAlbumArt ⟨none, true, true, true⟩ [] "image_cache"
        "https://img.example/art").err).isSome = true ∧
    albumArtColorOf ⟨none, true, true, true⟩ [] (fun _ => []) "image_cache"
        "https://img.example/art" = (248, 236, 235) :=
  ⟨downloadAlbumArt_error_fallback.2.2.2.2.1 ⟨some "image/jpeg", true, true, false⟩ []
      "image_cache" "https://img.example/art" (by decide) rfl (by decide) rfl rfl rfl,
    by decide,
    downloadAlbumArt_error_fallback.2.2.2.2.2.1 ⟨none, true, true, true⟩ [] (fun _ => [])
      "image_cache" "https://img.example/art" (by decide) (fun _ => rfl)⟩

/-- Claim C7 counterexample: a reference whose GET succeeds but whose
os.Create fails leaves no cache file behind, so resolving the same reference
twice issues two full fetches, contradicting "at most one full fetch". -/
theorem downloadAlbumArt_two_fetches :
    (downloadAlbumArt ⟨some "image/jpeg", true, false, true⟩ [] "image_cache"
        "https://img.example/art").fetched = true ∧
    (downloadAlbumArt ⟨some "image/jpeg", true, false, true⟩
        (downloadAlbumArt ⟨some "image/jpeg", true, false, true⟩ [] "image_cache"
          "https://img.example/art").fs
        "image_cache" "https://img.example/art").fetched = true := by
  exact ⟨by decide, by decide⟩

/-- Claim C7 (amended): whenever the cache-key file already exists, no fetch
is issued at all; under an image/jpeg probe such a resolution short-circuits
to a cache hit, returning the filename with a nil error and the store
unchanged; and after a resolution that fetched and finished without error
(so the file was written), a second resolution of the same reference issues
no fetch - the pair issues exactly one fetch. -/
theorem downloadAlbumArt_cache_hit :
    (∀ w fs dir url, cacheFileName dir url ∈ fs →
        (downloadAlbumArt w fs dir url).fetched = false) ∧
    (∀ w fs dir url, url ≠ "" → w.headContentType = some "image/jpeg" →
        cacheFileName dir url ∈ fs →
        downloadAlbumArt w fs dir url = ⟨cacheFileName dir url, none, fs, false⟩) ∧
    (∀ w w2 fs dir url,
        (downloadAlbumArt w fs dir url).err = none →
        (downloadAlbumArt w fs dir url).fetched = true →
        (downloadAlbumArt w2 (downloadAlbumArt w fs dir url).fs dir url).fetched = false) := by
  have h1 : ∀ w fs dir url, cacheFileName dir url ∈ fs →
      (downloadAlbumArt w fs dir url).fetched = false := by
    intro w fs dir url hmem
    by_cases hu : url = ""
    · simp [downloadAlbumArt, hu]
    · rcases hh : w.headContentType with _ | ct
      · simp [downloadAlbumArt, hu, hh]
      · by_cases hct : ct = "image/jpeg"
        · subst hct
          simp [downloadAlbumArt, hu, hh, hmem]
        · simp [downloadAlbumArt, hu, hh, hct]
  refine ⟨h1, ?_, ?_⟩
  · intro w fs dir url hu hh hmem
    simp [downloadAlbumArt, hu, hh, hmem]
  · intro w w2 fs dir url herr hfetch
    by_cases hu : url = ""
    · simp [downloadAlbumArt, hu] at hfetch
    · rcases hh : w.headContentType with _ | ct
      · simp [downloadAlbumArt, hu, hh] at hfetch
      · by_cases hct : ct = "image/jpeg"
        · subst hct
          by_cases hmem : cacheFileName dir url ∈ fs
          · simp [downloadAlbumArt, hu, hh, hmem] at hfetch
          · rcases hget : w.getOk with _ | _
            · simp [downloadAlbumArt, hu, hh, hmem, hget] at herr
            · rcases hcreate : w.createOk with _ | _
              · simp [downloadAlbumArt, hu, hh, hmem, hget, hcreate] at herr
              · rcases hcp : w.copyOk with _ | _
                · simp [downloadAlbumArt, hu, hh, hmem, hget, hcreate, hcp] at herr
                · have hfs : (downloadAlbumArt w fs dir url).fs
                      = cacheFileName dir url :: fs := by
                    simp [downloadAlbumArt, hu, hh, hmem, hget, hcreate, hcp]
                  rw [hfs]
                  exact h1 w2 _ dir url (List.mem_cons_self _ _)
        · simp [downloadAlbumArt, hu, hh, hct] at hfetch

/-- Witness for the amended C7: a fully successful first resolution, after
which a second resolution of the same reference does not fetch, whatever the
network does the second time. -/
theorem downloadAlbumArt_cache_hit_witness :
    ((downloadAlbumArt ⟨some "image/jpeg", true, true, true⟩ [] "image_cache"
        "https://img.example/art").err = none) ∧
    ((downloadAlbumArt ⟨some "image/jpeg", true, true, true⟩ [] "image_cache"
        "https://img.example/art").fetched = true) ∧
    (downloadAlbumArt ⟨some "image/jpeg", false, false, false⟩
        (downloadAlbumArt ⟨some "image/jpeg", true, true, true⟩ [] "image_cache"
          "https://img.example/art").fs
        "image_cache" "https://img.example/art").fetched = false :=
  ⟨by decide, by decide,
    downloadAlbumArt_cache_hit.2.2 ⟨some "image/jpeg", true, true, true⟩
      ⟨some "image/jpeg", false, false, false⟩ [] "image_cache" "https://img.example/art"
      (by decide) (by decide)⟩

/-- The sRGB expansion maps 1 to 1: ((1 + 0.055) / 1.055) ^ 2.4 = 1. -/
theorem sRGBToLinear_one : sRGBToLinear 1 = 1 := by
  unfold sRGBToLinear
  rw [if_neg (by norm_num)]
  have h : ((1 : ℝ) + 0.055) / 1.055 = 1 := by norm_num
  rw [h, Real.one_rpow]

/-- The sRGB expansion maps 0 to 0 through the linear branch. -/
theorem sRGBToLinear_zero : sRGBToLinear 0 = 0 := by
  unfold sRGBToLinear
  rw [if_pos (by norm_num)]
  norm_num

/-- Relative luminance of pure white is exactly 1. -/
theorem relativeLuminance_white : relativeLuminance ⟨255, 255, 255, 255⟩ = 1 := by
  unfold relativeLuminance
  norm_num [sRGBToLinear_one]

/-- Relative luminance of pure black is exactly 0. -/
theorem relativeLuminance_black : relativeLuminance ⟨0, 0, 0, 255⟩ = 0 := by
  unfold relativeLuminance
  norm_num [sRGBToLinear_zero]

/-- Contrast of white against black is 21. -/
theorem contrast_white_black :
    calculateColorContrast ⟨255, 255, 255, 255⟩ ⟨0, 0, 0, 255⟩ = 21 := by
  unfold calculateColorContrast
  rw [relativeLuminance_white, relativeLuminance_black]
  unfold calculateContrastRatio
  rw [if_neg (by norm_num)]
  norm_num

/-- Contrast of white against itself is 1. -/
theorem contrast_white_white :
    calculateColorContrast ⟨255, 255, 255, 255⟩ ⟨255, 255, 255, 255⟩ = 1 := by
  unfold calculateColorContrast
  rw [relativeLuminance_white]
  unfold calculateContrastRatio
  rw [if_neg (by norm_num)]
  norm_num

/-- Contrast of black against itself is 1. -/
theorem contrast_black_black :
    calculateColorContrast ⟨0, 0, 0, 255⟩ ⟨0, 0, 0, 255⟩ = 1 := by
  unfold calculateColorContrast
  rw [relativeLuminance_black]
  unfold calculateContrastRatio
  rw [if_neg (by norm_num)]
  norm_num

/-- Contrast of black against white is 21. -/
theorem contrast_black_white :
    calculateColorContrast ⟨0, 0, 0, 255⟩ ⟨255, 255, 255, 255⟩ = 21 := by
  unfold calculateColorContrast
  rw [relativeLuminance_black, relativeLuminance_white]
  unfold calculateContrastRatio
  rw [if_pos (by norm_num)]
  norm_num

/-- Claim C5: foreground selection over the candidates black and white with
the WCAG contrast function is deterministic (same input, same choice); pure
white selects black and pure black selects white; the strict > comparison
makes provideTextColor exactly the best-so-far tracking fold over the
candidate enumeration it realizes (white first, then black); and a tied
fold step keeps the earlier candidate, so ties go to the first candidate in
that enumeration order. -/
theorem provideTextColor_spec :
    (∀ c : Rgba, provideTextColor c = provideTextColor c) ∧
    provideTextColor ⟨255, 255, 255, 255⟩ = ⟨0, 0, 0, 255⟩ ∧
    provideTextColor ⟨0, 0, 0, 255⟩ = ⟨255, 255, 255, 255⟩ ∧
    (∀ c : Rgba,
      provideTextColor c = selectMaxContrast c ⟨255, 255, 255, 255⟩ [⟨0, 0, 0, 255⟩]) ∧
    (∀ bg first cand : Rgba,
        calculateColorContrast bg cand = calculateColorContrast bg first →
        selectMaxContrast bg first [cand] = first) := by
  refine ⟨fun _ => rfl, ?_, ?_, fun c => rfl, ?_⟩
  · unfold provideTextColor
    rw [contrast_white_black, contrast_white_white]
    exact if_pos (by norm_num)
  · unfold provideTextColor
    rw [contrast_black_black, contrast_black_white]
    exact if_neg (by norm_num)
  · intro bg first cand h
    unfold selectMaxContrast
    simp only [List.foldl]
    rw [h]
    exact if_neg (lt_irrefl _)

/-- Witness for C5: the white-background selection, and a concrete tied fold
step that keeps the first candidate. -/
theorem provideTextColor_spec_witness :
    provideTextColor ⟨255, 255, 255, 255⟩ = ⟨0, 0, 0, 255⟩ ∧
    selectMaxContrast ⟨0, 0, 0, 255⟩ ⟨0, 0, 0, 255⟩ [⟨0, 0, 0, 255⟩] = ⟨0, 0, 0, 255⟩ :=
  ⟨provideTextColor_spec.2.1, provideTextColor_spec.2.2.2.2 _ _ _ rfl⟩

/-- Claim C9: calculateColorContrast is symmetric in its two colors, and for
nonnegative luminances calculateContrastRatio is at least 1, because the
lighter luminance is swapped into the numerator before dividing. -/
theorem contrast_symm_ge_one :
    (∀ c1 c2 : Rgba, calculateColorContrast c1 c2 = calculateColorContrast c2 c1) ∧
    (∀ l1 l2 : ℝ, 0 ≤ l1 → 0 ≤ l2 → 1 ≤ calculateContrastRatio l1 l2) := by
  have hsymm : ∀ a b : ℝ, calculateContrastRatio a b = calculateContrastRatio b a := by
    intro a b
    unfold calculateContrastRatio
    rcases lt_trichotomy a b with h | h | h
    · rw [if_pos h, if_neg (not_lt.2 (le_of_lt h))]
    · rw [h]
    · rw [if_neg (not_lt.2 (le_of_lt h)), if_pos h]
  constructor
  · intro c1 c2
    unfold calculateColorContrast
    exact hsymm _ _
  · intro l1 l2 h1 h2
    unfold calculateContrastRatio
    split_ifs with h
    · rw [one_le_div (by linarith)]
      linarith
    · have h3 := not_lt.1 h
      rw [one_le_div (by linarith)]
      linarith

/-- Witness for C9 at the luminance pair (0, 0). -/
theorem contrast_symm_ge_one_witness :
    (0 : ℝ) ≤ 0 ∧ 1 ≤ calculateContrastRatio 0 0 :=
  ⟨le_refl 0, contrast_symm_ge_one.2 0 0 (le_refl 0) (le_refl 0)⟩
